import Mathlib

/-!
Verification of the piston `input` crate's event model: the concrete data
model (`MouseButton`, `Button`, `Motion`, `Input`), the `EventId` tags, and
the generic accessor traits (`MouseCursorEvent`, `MouseRelativeEvent`,
`MouseScrollEvent`, `ResizeEvent`, `TextEvent`) implemented once for every
type satisfying the `GenericEvent` capability.

Rust `f64` payloads are carried opaquely (no arithmetic is ever performed on
them by this library), so they are embedded as `Rat` values with decidable
equality.  Rust `u32` payloads are embedded as `Nat` (no arithmetic either).
A Rust panic inside a mapping operation is embedded as the `MapResult.fatal`
constructor carrying the panic message.
-/

/-- Embedding of Rust `f64` as carried by mouse payloads: the library never
computes with these values, it only stores and returns them, so a value type
with decidable equality is a faithful carrier. -/
abbrev F64 := Rat

/-- Modelled from the spec: `Key` (keyboard module, outside the core) is an
opaque value type with equality. -/
structure Key where
  code : Nat
deriving DecidableEq, Repr

/-- Modelled from the spec: `ControllerButton` is an opaque value type with
equality. -/
structure ControllerButton where
  id : Nat
  button : Nat
deriving DecidableEq, Repr

/-- Modelled from the spec: `ControllerAxisArgs` is an opaque value type with
equality. -/
structure ControllerAxisArgs where
  id : Nat
  axis : Nat
  position : F64
deriving DecidableEq, Repr

/-- Modelled from the spec: `TouchArgs` is an opaque value type with
equality. -/
structure TouchArgs where
  device : Nat
  id : Nat
deriving DecidableEq, Repr

/-- `MouseButton` enum from `mouse.rs`: represents a mouse button press. -/
inductive MouseButton where
  | Unknown
  | Left
  | Right
  | Middle
  | X1
  | X2
  | Button6
  | Button7
  | Button8
deriving DecidableEq, Repr

/-- `impl From<u32> for MouseButton` from `mouse.rs`: converts a number into
a `MouseButton`, with every unmatched number mapping to `Unknown`. -/
def MouseButton.fromU32 : Nat → MouseButton
  | 0 => MouseButton.Unknown
  | 1 => MouseButton.Left
  | 2 => MouseButton.Right
  | 3 => MouseButton.Middle
  | 4 => MouseButton.X1
  | 5 => MouseButton.X2
  | 6 => MouseButton.Button6
  | 7 => MouseButton.Button7
  | 8 => MouseButton.Button8
  | _ => MouseButton.Unknown

/-- `impl From<MouseButton> for u32` from `mouse.rs`: converts a
`MouseButton` into a number. -/
def MouseButton.toU32 : MouseButton → Nat
  | MouseButton.Unknown => 0
  | MouseButton.Left => 1
  | MouseButton.Right => 2
  | MouseButton.Middle => 3
  | MouseButton.X1 => 4
  | MouseButton.X2 => 5
  | MouseButton.Button6 => 6
  | MouseButton.Button7 => 7
  | MouseButton.Button8 => 8

/-- `EventId` from `lib.rs`: a tag identifying one event kind, wrapping a
static string; equality is the derived structural (string) equality. -/
structure EventId where
  name : String
deriving DecidableEq, Repr

def AFTER_RENDER : EventId := ⟨"piston/after_render"⟩

def CONTROLLER_AXIS : EventId := ⟨"piston/controller_axis"⟩

def CURSOR : EventId := ⟨"piston/cursor"⟩

def FOCUS : EventId := ⟨"piston/focus"⟩

def IDLE : EventId := ⟨"piston/idle"⟩

def MOUSE_SCROLL : EventId := ⟨"piston/mouse_scroll"⟩

def MOUSE_RELATIVE : EventId := ⟨"piston/mouse_relative"⟩

def MOUSE_CURSOR : EventId := ⟨"piston/mouse_cursor"⟩

def PRESS : EventId := ⟨"piston/press"⟩

def RELEASE : EventId := ⟨"piston/release"⟩

def RENDER : EventId := ⟨"piston/render"⟩

def RESIZE : EventId := ⟨"piston/resize"⟩

def TEXT : EventId := ⟨"piston/text"⟩

def TOUCH : EventId := ⟨"piston/touch"⟩

def UPDATE : EventId := ⟨"piston/update"⟩

/-- `Button` enum from `lib.rs`: each kind of button a backend might use. -/
inductive Button where
  | Keyboard (key : Key)
  | Mouse (btn : MouseButton)
  | Controller (btn : ControllerButton)
deriving DecidableEq, Repr

/-- `Motion` enum from `lib.rs`: each kind of input motion. -/
inductive Motion where
  | MouseCursor (x y : F64)
  | MouseRelative (x y : F64)
  | MouseScroll (x y : F64)
  | ControllerAxis (args : ControllerAxisArgs)
  | Touch (args : TouchArgs)
deriving DecidableEq, Repr

/-- `Input` enum from `lib.rs`: piston's default input events. -/
inductive Input where
  | Press (button : Button)
  | Release (button : Button)
  | Move (motion : Motion)
  | Text (text : String)
  | Resize (w h : Nat)
  | Focus (focus : Bool)
  | Cursor (cursor : Bool)
deriving DecidableEq, Repr

/-- `impl From<Key> for Button` from `lib.rs`. -/
def Button.fromKey (key : Key) : Button := Button.Keyboard key

/-- `impl From<MouseButton> for Button` from `lib.rs`. -/
def Button.fromMouseButton (btn : MouseButton) : Button := Button.Mouse btn

/-- `impl From<ControllerButton> for Button` from `lib.rs`. -/
def Button.fromControllerButton (btn : ControllerButton) : Button :=
  Button.Controller btn

/-- `impl From<ControllerAxisArgs> for Motion` from `lib.rs`. -/
def Motion.fromControllerAxisArgs (args : ControllerAxisArgs) : Motion :=
  Motion.ControllerAxis args

/-- `impl From<Motion> for Input` from `lib.rs`. -/
def Input.fromMotion (motion : Motion) : Input := Input.Move motion

/-- Embedding of the erased payload (`&Any` in the source): one constructor
per concrete payload type the event model transports.  `downcast_ref::<T>`
is embedded as matching the constructor for `T`. -/
inductive AnyVal where
  | pairF64 (x y : F64)
  | pairU32 (w h : Nat)
  | str (s : String)
  | button (b : Button)
  | axis (a : ControllerAxisArgs)
  | touchArgs (t : TouchArgs)
  | boolean (b : Bool)
  | renderArgs (a : Nat)
  | afterRenderArgs (a : Nat)
  | updateArgs (a : Nat)
  | idleArgs (a : Nat)
deriving DecidableEq, Repr

/-- Result of a typed mapping operation: `none`/`some` mirror the Rust
`Option` result, and `fatal msg` embeds a Rust panic with message `msg`
(the downcast-failure abort of §4.2/§7 of the design). -/
inductive MapResult (U : Type) where
  | none
  | some (u : U)
  | fatal (msg : String)
deriving DecidableEq, Repr

/-- True exactly on `MapResult.none`. -/
def MapResult.isNone {U : Type} : MapResult U → Bool
  | MapResult.none => true
  | _ => false

/-- True exactly on `MapResult.fatal _`. -/
def MapResult.isFatal {U : Type} : MapResult U → Bool
  | MapResult.fatal _ => true
  | _ => false

/-- Modelled from the spec: the `GenericEvent` capability (its defining
module `generic_event.rs` is not among the provided sources; §4.3 gives the
three required operations).  `event_id` reports the tag of the active
variant, `from_args` constructs a new event of the same concrete type from
a tag, an erased payload and a prior event, and `with_args` grants a
visitor scoped access to the active erased payload. -/
class GenericEvent (α : Type) where
  event_id : α → EventId
  from_args : EventId → AnyVal → α → Option α
  with_args : {U : Type} → α → (AnyVal → U) → U

/-- `MouseCursorEvent::from_xy` from the blanket impl in `mouse.rs`:
`GenericEvent::from_args(MOUSE_CURSOR, &(x, y) as &Any, old_event)`. -/
def MouseCursorEvent.from_xy {α : Type} [GenericEvent α]
    (x y : F64) (old_event : α) : Option α :=
  GenericEvent.from_args MOUSE_CURSOR (AnyVal.pairF64 x y) old_event

/-- `MouseCursorEvent::mouse_cursor` from the blanket impl in `mouse.rs`:
returns `none` when the tag differs from `MOUSE_CURSOR`, otherwise visits
the erased payload, panicking (`fatal`) when it is not an `(f64, f64)`. -/
def MouseCursorEvent.mouse_cursor {α U : Type} [GenericEvent α]
    (e : α) (f : F64 → F64 → U) : MapResult U :=
  if GenericEvent.event_id e ≠ MOUSE_CURSOR then
    MapResult.none
  else
    GenericEvent.with_args e (fun any =>
      match any with
      | AnyVal.pairF64 x y => MapResult.some (f x y)
      | _ => MapResult.fatal "Expected (f64, f64)")

/-- `MouseCursorEvent::mouse_cursor_args` default method from `mouse.rs`:
`self.mouse_cursor(|x, y| [x, y])`. -/
def MouseCursorEvent.mouse_cursor_args {α : Type} [GenericEvent α]
    (e : α) : MapResult (List F64) :=
  MouseCursorEvent.mouse_cursor e (fun x y => [x, y])

/-- `MouseRelativeEvent::from_xy` from the blanket impl in `mouse.rs`. -/
def MouseRelativeEvent.from_xy {α : Type} [GenericEvent α]
    (x y : F64) (old_event : α) : Option α :=
  GenericEvent.from_args MOUSE_RELATIVE (AnyVal.pairF64 x y) old_event

/-- `MouseRelativeEvent::mouse_relative` from the blanket impl in
`mouse.rs`. -/
def MouseRelativeEvent.mouse_relative {α U : Type} [GenericEvent α]
    (e : α) (f : F64 → F64 → U) : MapResult U :=
  if GenericEvent.event_id e ≠ MOUSE_RELATIVE then
    MapResult.none
  else
    GenericEvent.with_args e (fun any =>
      match any with
      | AnyVal.pairF64 x y => MapResult.some (f x y)
      | _ => MapResult.fatal "Expected (f64, f64)")

/-- `MouseRelativeEvent::mouse_relative_args` default method from
`mouse.rs`: `self.mouse_relative(|x, y| [x, y])`. -/
def MouseRelativeEvent.mouse_relative_args {α : Type} [GenericEvent α]
    (e : α) : MapResult (List F64) :=
  MouseRelativeEvent.mouse_relative e (fun x y => [x, y])

/-- `MouseScrollEvent::from_xy` from the blanket impl in `mouse.rs`. -/
def MouseScrollEvent.from_xy {α : Type} [GenericEvent α]
    (x y : F64) (old_event : α) : Option α :=
  GenericEvent.from_args MOUSE_SCROLL (AnyVal.pairF64 x y) old_event

/-- `MouseScrollEvent::mouse_scroll` from the blanket impl in `mouse.rs`. -/
def MouseScrollEvent.mouse_scroll {α U : Type} [GenericEvent α]
    (e : α) (f : F64 → F64 → U) : MapResult U :=
  if GenericEvent.event_id e ≠ MOUSE_SCROLL then
    MapResult.none
  else
    GenericEvent.with_args e (fun any =>
      match any with
      | AnyVal.pairF64 x y => MapResult.some (f x y)
      | _ => MapResult.fatal "Expected (f64, f64)")

/-- `MouseScrollEvent::mouse_scroll_args` default method from `mouse.rs`:
`self.mouse_scroll(|x, y| [x, y])`. -/
def MouseScrollEvent.mouse_scroll_args {α : Type} [GenericEvent α]
    (e : α) : MapResult (List F64) :=
  MouseScrollEvent.mouse_scroll e (fun x y => [x, y])

/-- `ResizeEvent::from_width_height` from the blanket impl in `resize.rs`:
`GenericEvent::from_args(RESIZE, &(w, h) as &Any, old_event)`. -/
def ResizeEvent.from_width_height {α : Type} [GenericEvent α]
    (w h : Nat) (old_event : α) : Option α :=
  GenericEvent.from_args RESIZE (AnyVal.pairU32 w h) old_event

/-- `ResizeEvent::resize` from the blanket impl in `resize.rs`. -/
def ResizeEvent.resize {α U : Type} [GenericEvent α]
    (e : α) (f : Nat → Nat → U) : MapResult U :=
  if GenericEvent.event_id e ≠ RESIZE then
    MapResult.none
  else
    GenericEvent.with_args e (fun any =>
      match any with
      | AnyVal.pairU32 w h => MapResult.some (f w h)
      | _ => MapResult.fatal "Expected (u32, u32)")

/-- `ResizeEvent::resize_args` default method from `resize.rs`:
`self.resize(|x, y| [x, y])`. -/
def ResizeEvent.resize_args {α : Type} [GenericEvent α]
    (e : α) : MapResult (List Nat) :=
  ResizeEvent.resize e (fun x y => [x, y])

/-- `TextEvent::from_text` from the blanket impl in `text.rs`:
`GenericEvent::from_args(TEXT, &text.to_owned() as &Any, old_event)`. -/
def TextEvent.from_text {α : Type} [GenericEvent α]
    (text : String) (old_event : α) : Option α :=
  GenericEvent.from_args TEXT (AnyVal.str text) old_event

/-- `TextEvent::text` from the blanket impl in `text.rs`. -/
def TextEvent.text {α U : Type} [GenericEvent α]
    (e : α) (f : String → U) : MapResult U :=
  if GenericEvent.event_id e ≠ TEXT then
    MapResult.none
  else
    GenericEvent.with_args e (fun any =>
      match any with
      | AnyVal.str s => MapResult.some (f s)
      | _ => MapResult.fatal "Expected &str")

/-- `TextEvent::text_args` default method from `text.rs`:
`self.text(|text| text.to_owned())` (`to_owned` on the borrowed string is
the identity on the carried `String` value in this embedding). -/
def TextEvent.text_args {α : Type} [GenericEvent α]
    (e : α) : MapResult String :=
  TextEvent.text e (fun t => t)

/-- Modelled from the spec: the `EventId` tag of the active `Input` variant
(§3: the tag is derived from which variant is active, not stored). -/
def Input.event_id : Input → EventId
  | Input.Press _ => PRESS
  | Input.Release _ => RELEASE
  | Input.Move (Motion.MouseCursor _ _) => MOUSE_CURSOR
  | Input.Move (Motion.MouseRelative _ _) => MOUSE_RELATIVE
  | Input.Move (Motion.MouseScroll _ _) => MOUSE_SCROLL
  | Input.Move (Motion.ControllerAxis _) => CONTROLLER_AXIS
  | Input.Move (Motion.Touch _) => TOUCH
  | Input.Text _ => TEXT
  | Input.Resize _ _ => RESIZE
  | Input.Focus _ => FOCUS
  | Input.Cursor _ => CURSOR

/-- Modelled from the spec: the erased payload of the active `Input`
variant, as granted to `with_args` visitors (§3: the active variant's
payload type is exactly the type each accessor expects for that tag). -/
def Input.payload : Input → AnyVal
  | Input.Press b => AnyVal.button b
  | Input.Release b => AnyVal.button b
  | Input.Move (Motion.MouseCursor x y) => AnyVal.pairF64 x y
  | Input.Move (Motion.MouseRelative x y) => AnyVal.pairF64 x y
  | Input.Move (Motion.MouseScroll x y) => AnyVal.pairF64 x y
  | Input.Move (Motion.ControllerAxis a) => AnyVal.axis a
  | Input.Move (Motion.Touch t) => AnyVal.touchArgs t
  | Input.Text s => AnyVal.str s
  | Input.Resize w h => AnyVal.pairU32 w h
  | Input.Focus b => AnyVal.boolean b
  | Input.Cursor b => AnyVal.boolean b

/-- Modelled from the spec: construction of an `Input` from a tag and an
erased payload (§4.3 `from_args`; `Input` carries no ancillary state beyond
the payload, so the prior event contributes nothing).  Returns the variant
for the tag when the payload has that tag's contracted type, `none` for a
tag `Input` cannot represent. -/
def Input.from_id_payload (id : EventId) (payload : AnyVal) : Option Input :=
  if id = MOUSE_CURSOR then
    match payload with
    | AnyVal.pairF64 x y => some (Input.Move (Motion.MouseCursor x y))
    | _ => none
  else if id = MOUSE_RELATIVE then
    match payload with
    | AnyVal.pairF64 x y => some (Input.Move (Motion.MouseRelative x y))
    | _ => none
  else if id = MOUSE_SCROLL then
    match payload with
    | AnyVal.pairF64 x y => some (Input.Move (Motion.MouseScroll x y))
    | _ => none
  else if id = RESIZE then
    match payload with
    | AnyVal.pairU32 w h => some (Input.Resize w h)
    | _ => none
  else if id = TEXT then
    match payload with
    | AnyVal.str s => some (Input.Text s)
    | _ => none
  else if id = PRESS then
    match payload with
    | AnyVal.button b => some (Input.Press b)
    | _ => none
  else if id = RELEASE then
    match payload with
    | AnyVal.button b => some (Input.Release b)
    | _ => none
  else if id = CONTROLLER_AXIS then
    match payload with
    | AnyVal.axis a => some (Input.Move (Motion.ControllerAxis a))
    | _ => none
  else if id = TOUCH then
    match payload with
    | AnyVal.touchArgs t => some (Input.Move (Motion.Touch t))
    | _ => none
  else if id = FOCUS then
    match payload with
    | AnyVal.boolean b => some (Input.Focus b)
    | _ => none
  else if id = CURSOR then
    match payload with
    | AnyVal.boolean b => some (Input.Cursor b)
    | _ => none
  else
    none

/-- Modelled from the spec: `impl GenericEvent for Input` (its module is not
among the provided sources; §2, §4.3 and the tests in `mouse.rs`,
`resize.rs`, `text.rs` fix its behaviour). -/
instance : GenericEvent Input where
  event_id := Input.event_id
  from_args id payload _old := Input.from_id_payload id payload
  with_args e f := f (Input.payload e)

/-- Modelled from the spec: the richer `Event` wrapper (§1, §3): one more
implementer of the capability, adding render, after-render, update and idle
variants around `Input`. -/
inductive Event where
  | Input (i : Input)
  | Render (a : Nat)
  | AfterRender (a : Nat)
  | Update (a : Nat)
  | Idle (a : Nat)
deriving DecidableEq, Repr

/-- Modelled from the spec: the `EventId` tag of the active `Event`
variant. -/
def Event.event_id : Event → EventId
  | Event.Input i => Input.event_id i
  | Event.Render _ => RENDER
  | Event.AfterRender _ => AFTER_RENDER
  | Event.Update _ => UPDATE
  | Event.Idle _ => IDLE

/-- Modelled from the spec: the erased payload of the active `Event`
variant. -/
def Event.payload : Event → AnyVal
  | Event.Input i => Input.payload i
  | Event.Render a => AnyVal.renderArgs a
  | Event.AfterRender a => AnyVal.afterRenderArgs a
  | Event.Update a => AnyVal.updateArgs a
  | Event.Idle a => AnyVal.idleArgs a

/-- Modelled from the spec: construction of an `Event` from a tag and an
erased payload (§4.3 `from_args`): the wrapper kinds build their own
variants, every other tag is delegated to the inner `Input` model. -/
def Event.from_id_payload (id : EventId) (payload : AnyVal) : Option Event :=
  if id = RENDER then
    match payload with
    | AnyVal.renderArgs a => some (Event.Render a)
    | _ => none
  else if id = AFTER_RENDER then
    match payload with
    | AnyVal.afterRenderArgs a => some (Event.AfterRender a)
    | _ => none
  else if id = UPDATE then
    match payload with
    | AnyVal.updateArgs a => some (Event.Update a)
    | _ => none
  else if id = IDLE then
    match payload with
    | AnyVal.idleArgs a => some (Event.Idle a)
    | _ => none
  else
    (Input.from_id_payload id payload).map Event.Input

/-- Modelled from the spec: `impl GenericEvent for Event`. -/
instance : GenericEvent Event where
  event_id := Event.event_id
  from_args id payload _old := Event.from_id_payload id payload
  with_args e f := f (Event.payload e)

/-- An arbitrary tag/payload pair exposed as a `GenericEvent`: the least
constrained implementation of the capability, able to violate the §3
invariant that the payload type matches the tag.  Used to exercise the
FATAL downcast-mismatch path of the mapping operations, which no
invariant-respecting concrete type can reach. -/
structure RawEvent where
  id : EventId
  payload : AnyVal
deriving DecidableEq, Repr

instance : GenericEvent RawEvent where
  event_id e := e.id
  from_args id payload _old := some ⟨id, payload⟩
  with_args e f := f e.payload

/-- C3: for every integer `n` with `0 ≤ n ≤ 8`, converting `n` to
`MouseButton` via `From<u32>` and back via `From<MouseButton>` yields `n`
again; and for every integer `n > 8`, `From<u32>` maps `n` to
`MouseButton::Unknown` rather than failing. -/
theorem mouseButton_num_roundtrip :
    (∀ n : Nat, n ≤ 8 →
      MouseButton.toU32 (MouseButton.fromU32 n) = n) ∧
    (∀ n : Nat, 8 < n → MouseButton.fromU32 n = MouseButton.Unknown) := by
  constructor
  · intro n h
    interval_cases n <;> rfl
  · intro n h
    match n, h with
    | m + 9, _ => rfl

/-- Witness for C3 at `n = 5` and `n = 42`. -/
theorem mouseButton_num_roundtrip_witness :
    MouseButton.toU32 (MouseButton.fromU32 5) = 5 ∧
    MouseButton.fromU32 42 = MouseButton.Unknown :=
  ⟨mouseButton_num_roundtrip.1 5 (by decide),
   mouseButton_num_roundtrip.2 42 (by decide)⟩

/-- C8: `EventId` equality is structural equality of the underlying tag
string (a pure function of the two values), and the fifteen library
constants are pairwise unequal. -/
theorem eventId_equality_and_constants_distinct :
    (∀ a b : EventId, a = b ↔ a.name = b.name) ∧
    List.Pairwise (fun a b => a ≠ b)
      [AFTER_RENDER, CONTROLLER_AXIS, CURSOR, FOCUS, IDLE, MOUSE_SCROLL,
       MOUSE_RELATIVE, MOUSE_CURSOR, PRESS, RELEASE, RENDER, RESIZE, TEXT,
       TOUCH, UPDATE] := by
  constructor
  · intro a b
    constructor
    · intro h
      rw [h]
    · intro h
      cases a
      cases b
      cases h
      rfl
  · decide

/-- C9: converting any `MouseButton` (including `Unknown`) to a number and
back yields the same button, even though the number-to-button direction is
not injective: `0` and every integer above `8` both map to `Unknown`. -/
theorem mouseButton_enum_roundtrip :
    (∀ b : MouseButton, MouseButton.fromU32 (MouseButton.toU32 b) = b) ∧
    MouseButton.fromU32 0 = MouseButton.Unknown ∧
    (∀ n : Nat, 8 < n → MouseButton.fromU32 n = MouseButton.Unknown) := by
  refine ⟨?_, rfl, ?_⟩
  · intro b
    cases b <;> rfl
  · intro n h
    match n, h with
    | m + 9, _ => rfl

/-- Witness for C9 at `b = Unknown` and `n = 9`. -/
theorem mouseButton_enum_roundtrip_witness :
    MouseButton.fromU32 (MouseButton.toU32 MouseButton.Unknown) =
      MouseButton.Unknown ∧
    MouseButton.fromU32 9 = MouseButton.Unknown :=
  ⟨mouseButton_enum_roundtrip.1 MouseButton.Unknown,
   mouseButton_enum_roundtrip.2.2 9 (by decide)⟩

/-- C10: every `From` conversion among the concrete data-model types is a
plain variant wrapper. -/
theorem from_conversions_are_variant_wrappers :
    (∀ k : Key, Button.fromKey k = Button.Keyboard k) ∧
    (∀ b : MouseButton, Button.fromMouseButton b = Button.Mouse b) ∧
    (∀ c : ControllerButton,
      Button.fromControllerButton c = Button.Controller c) ∧
    (∀ a : ControllerAxisArgs,
      Motion.fromControllerAxisArgs a = Motion.ControllerAxis a) ∧
    (∀ m : Motion, Input.fromMotion m = Input.Move m) :=
  ⟨fun _ => rfl, fun _ => rfl, fun _ => rfl, fun _ => rfl, fun _ => rfl⟩

/-- C7: for every concrete type implementing `GenericEvent` and every
input, each typed constructor returns exactly the result of the underlying
`GenericEvent::from_args` call with that kind's `EventId` and the erased
payload — in particular it is `none` exactly when `from_args` is, and
otherwise is exactly the event `from_args` produced. -/
theorem typed_constructors_delegate_to_from_args
    {α : Type} [GenericEvent α] (x y : F64) (w h : Nat) (s : String)
    (old : α) :
    MouseCursorEvent.from_xy x y old =
      GenericEvent.from_args MOUSE_CURSOR (AnyVal.pairF64 x y) old ∧
    MouseRelativeEvent.from_xy x y old =
      GenericEvent.from_args MOUSE_RELATIVE (AnyVal.pairF64 x y) old ∧
    MouseScrollEvent.from_xy x y old =
      GenericEvent.from_args MOUSE_SCROLL (AnyVal.pairF64 x y) old ∧
    ResizeEvent.from_width_height w h old =
      GenericEvent.from_args RESIZE (AnyVal.pairU32 w h) old ∧
    TextEvent.from_text s old =
      GenericEvent.from_args TEXT (AnyVal.str s) old :=
  ⟨rfl, rfl, rfl, rfl, rfl⟩

/-- C4: for the reference `Input` and `Event` concrete types, every typed
constructor returns `some` (never `none`) for all valid inputs and every
prior event value. -/
theorem typed_constructors_never_none_on_reference_types
    (x y : F64) (w h : Nat) (s : String) (oi : Input) (oe : Event) :
    (MouseCursorEvent.from_xy x y oi).isSome = true ∧
    (MouseRelativeEvent.from_xy x y oi).isSome = true ∧
    (MouseScrollEvent.from_xy x y oi).isSome = true ∧
    (ResizeEvent.from_width_height w h oi).isSome = true ∧
    (TextEvent.from_text s oi).isSome = true ∧
    (MouseCursorEvent.from_xy x y oe).isSome = true ∧
    (MouseRelativeEvent.from_xy x y oe).isSome = true ∧
    (MouseScrollEvent.from_xy x y oe).isSome = true ∧
    (ResizeEvent.from_width_height w h oe).isSome = true ∧
    (TextEvent.from_text s oe).isSome = true :=
  ⟨rfl, rfl, rfl, rfl, rfl, rfl, rfl, rfl, rfl, rfl⟩

/-- C1: for each accessor kind, constructing an event via the kind's typed
constructor from an arbitrary prior reference event and then extracting via
the kind's typed mapping with an identity-like visitor yields exactly the
payload that was put in; in particular a mouse-cursor event built at
`(1.0, 0.0)` from a resize event reads back as `(1.0, 0.0)`. -/
theorem constructor_mapping_round_trip
    (x y : F64) (w h : Nat) (s : String) (oi : Input) (oe : Event) :
    ((MouseCursorEvent.from_xy x y oi).map (fun e =>
      MouseCursorEvent.mouse_cursor e (fun a b => (a, b))) =
      some (MapResult.some (x, y))) ∧
    ((MouseRelativeEvent.from_xy x y oi).map (fun e =>
      MouseRelativeEvent.mouse_relative e (fun a b => (a, b))) =
      some (MapResult.some (x, y))) ∧
    ((MouseScrollEvent.from_xy x y oi).map (fun e =>
      MouseScrollEvent.mouse_scroll e (fun a b => (a, b))) =
      some (MapResult.some (x, y))) ∧
    ((ResizeEvent.from_width_height w h oi).map (fun e =>
      ResizeEvent.resize e (fun a b => (a, b))) =
      some (MapResult.some (w, h))) ∧
    ((TextEvent.from_text s oi).map (fun e =>
      TextEvent.text e (fun t => t)) =
      some (MapResult.some s)) ∧
    ((MouseCursorEvent.from_xy x y oe).map (fun e =>
      MouseCursorEvent.mouse_cursor e (fun a b => (a, b))) =
      some (MapResult.some (x, y))) ∧
    ((MouseRelativeEvent.from_xy x y oe).map (fun e =>
      MouseRelativeEvent.mouse_relative e (fun a b => (a, b))) =
      some (MapResult.some (x, y))) ∧
    ((MouseScrollEvent.from_xy x y oe).map (fun e =>
      MouseScrollEvent.mouse_scroll e (fun a b => (a, b))) =
      some (MapResult.some (x, y))) ∧
    ((ResizeEvent.from_width_height w h oe).map (fun e =>
      ResizeEvent.resize e (fun a b => (a, b))) =
      some (MapResult.some (w, h))) ∧
    ((TextEvent.from_text s oe).map (fun e =>
      TextEvent.text e (fun t => t)) =
      some (MapResult.some s)) ∧
    ((MouseCursorEvent.from_xy (1 : F64) (0 : F64) (Input.Resize 640 480)).map
      (fun e => MouseCursorEvent.mouse_cursor e (fun a b => (a, b))) =
      some (MapResult.some ((1 : F64), (0 : F64)))) :=
  ⟨rfl, rfl, rfl, rfl, rfl, rfl, rfl, rfl, rfl, rfl, rfl⟩

/-- C2: a typed mapping operation for kind `K` returns `none` as soon as the
event's tag differs from `K`, for every type implementing `GenericEvent`
and regardless of the instance's `with_args` (so the erased payload is
never consulted); in particular a text event carrying `"hello"` yields
`none` from the resize mapping. -/
theorem tag_mismatch_mapping_none
    {α : Type} [GenericEvent α] (e : α) :
    (∀ (U : Type) (f : F64 → F64 → U),
      GenericEvent.event_id e ≠ MOUSE_CURSOR →
      MouseCursorEvent.mouse_cursor e f = MapResult.none) ∧
    (∀ (U : Type) (f : F64 → F64 → U),
      GenericEvent.event_id e ≠ MOUSE_RELATIVE →
      MouseRelativeEvent.mouse_relative e f = MapResult.none) ∧
    (∀ (U : Type) (f : F64 → F64 → U),
      GenericEvent.event_id e ≠ MOUSE_SCROLL →
      MouseScrollEvent.mouse_scroll e f = MapResult.none) ∧
    (∀ (U : Type) (f : Nat → Nat → U),
      GenericEvent.event_id e ≠ RESIZE →
      ResizeEvent.resize e f = MapResult.none) ∧
    (∀ (U : Type) (f : String → U),
      GenericEvent.event_id e ≠ TEXT →
      TextEvent.text e f = MapResult.none) ∧
    (∀ (U : Type) (f : Nat → Nat → U),
      ResizeEvent.resize (Input.Text "hello") f = MapResult.none) :=
  ⟨fun _ _ h => if_pos h, fun _ _ h => if_pos h, fun _ _ h => if_pos h,
   fun _ _ h => if_pos h, fun _ _ h => if_pos h, fun _ _ => rfl⟩

/-- Witness for C2: a text event carrying `"hello"` yields `none` from the
resize mapping, with the tag-mismatch hypothesis discharged by computing
`event_id`. -/
theorem tag_mismatch_mapping_none_witness :
    ResizeEvent.resize (Input.Text "hello") (fun w h => (w, h)) =
      MapResult.none :=
  (tag_mismatch_mapping_none (Input.Text "hello")).2.2.2.1
    (Nat × Nat) (fun w h => (w, h)) (by decide)

/-- C5: each derived convenience accessor equals its mapping operation
applied to the packaging visitor (for every `GenericEvent` type), and it is
`none`, respectively fatal, exactly when the mapping operation with an
arbitrary visitor is — shown for the reference `Input` and `Event` types
and for arbitrary tag/payload pairs (`RawEvent`), where the fatal case is
reachable. -/
theorem args_accessors_match_mapping :
    (∀ (α : Type) [GenericEvent α] (e : α),
      MouseCursorEvent.mouse_cursor_args e =
        MouseCursorEvent.mouse_cursor e (fun x y => [x, y]) ∧
      MouseRelativeEvent.mouse_relative_args e =
        MouseRelativeEvent.mouse_relative e (fun x y => [x, y]) ∧
      MouseScrollEvent.mouse_scroll_args e =
        MouseScrollEvent.mouse_scroll e (fun x y => [x, y]) ∧
      ResizeEvent.resize_args e = ResizeEvent.resize e (fun x y => [x, y]) ∧
      TextEvent.text_args e = TextEvent.text e (fun t => t)) ∧
    (∀ (e : Input) (U : Type) (f : F64 → F64 → U) (g : Nat → Nat → U)
        (t : String → U),
      ((MouseCursorEvent.mouse_cursor_args e).isNone =
          (MouseCursorEvent.mouse_cursor e f).isNone ∧
        (MouseCursorEvent.mouse_cursor_args e).isFatal =
          (MouseCursorEvent.mouse_cursor e f).isFatal) ∧
      ((MouseRelativeEvent.mouse_relative_args e).isNone =
          (MouseRelativeEvent.mouse_relative e f).isNone ∧
        (MouseRelativeEvent.mouse_relative_args e).isFatal =
          (MouseRelativeEvent.mouse_relative e f).isFatal) ∧
      ((MouseScrollEvent.mouse_scroll_args e).isNone =
          (MouseScrollEvent.mouse_scroll e f).isNone ∧
        (MouseScrollEvent.mouse_scroll_args e).isFatal =
          (MouseScrollEvent.mouse_scroll e f).isFatal) ∧
      ((ResizeEvent.resize_args e).isNone =
          (ResizeEvent.resize e g).isNone ∧
        (ResizeEvent.resize_args e).isFatal =
          (ResizeEvent.resize e g).isFatal) ∧
      ((TextEvent.text_args e).isNone = (TextEvent.text e t).isNone ∧
        (TextEvent.text_args e).isFatal = (TextEvent.text e t).isFatal)) ∧
    (∀ (e : Event) (U : Type) (f : F64 → F64 → U) (g : Nat → Nat → U)
        (t : String → U),
      ((MouseCursorEvent.mouse_cursor_args e).isNone =
          (MouseCursorEvent.mouse_cursor e f).isNone ∧
        (MouseCursorEvent.mouse_cursor_args e).isFatal =
          (MouseCursorEvent.mouse_cursor e f).isFatal) ∧
      ((MouseRelativeEvent.mouse_relative_args e).isNone =
          (MouseRelativeEvent.mouse_relative e f).isNone ∧
        (MouseRelativeEvent.mouse_relative_args e).isFatal =
          (MouseRelativeEvent.mouse_relative e f).isFatal) ∧
      ((MouseScrollEvent.mouse_scroll_args e).isNone =
          (MouseScrollEvent.mouse_scroll e f).isNone ∧
        (MouseScrollEvent.mouse_scroll_args e).isFatal =
          (MouseScrollEvent.mouse_scroll e f).isFatal) ∧
      ((ResizeEvent.resize_args e).isNone =
          (ResizeEvent.resize e g).isNone ∧
        (ResizeEvent.resize_args e).isFatal =
          (ResizeEvent.resize e g).isFatal) ∧
      ((TextEvent.text_args e).isNone = (TextEvent.text e t).isNone ∧
        (TextEvent.text_args e).isFatal = (TextEvent.text e t).isFatal)) ∧
    (∀ (e : RawEvent) (U : Type) (f : F64 → F64 → U) (g : Nat → Nat → U)
        (t : String → U),
      ((MouseCursorEvent.mouse_cursor_args e).isNone =
          (MouseCursorEvent.mouse_cursor e f).isNone ∧
        (MouseCursorEvent.mouse_cursor_args e).isFatal =
          (MouseCursorEvent.mouse_cursor e f).isFatal) ∧
      ((MouseRelativeEvent.mouse_relative_args e).isNone =
          (MouseRelativeEvent.mouse_relative e f).isNone ∧
        (MouseRelativeEvent.mouse_relative_args e).isFatal =
          (MouseRelativeEvent.mouse_relative e f).isFatal) ∧
      ((MouseScrollEvent.mouse_scroll_args e).isNone =
          (MouseScrollEvent.mouse_scroll e f).isNone ∧
        (MouseScrollEvent.mouse_scroll_args e).isFatal =
          (MouseScrollEvent.mouse_scroll e f).isFatal) ∧
      ((ResizeEvent.resize_args e).isNone =
          (ResizeEvent.resize e g).isNone ∧
        (ResizeEvent.resize_args e).isFatal =
          (ResizeEvent.resize e g).isFatal) ∧
      ((TextEvent.text_args e).isNone = (TextEvent.text e t).isNone ∧
        (TextEvent.text_args e).isFatal = (TextEvent.text e t).isFatal)) := by
  refine ⟨fun α _ e => ⟨rfl, rfl, rfl, rfl, rfl⟩, ?_, ?_, ?_⟩
  · intro e U f g t
    cases e <;> (try cases ‹Motion›) <;>
      exact ⟨⟨rfl, rfl⟩, ⟨rfl, rfl⟩, ⟨rfl, rfl⟩, ⟨rfl, rfl⟩, ⟨rfl, rfl⟩⟩
  · intro e U f g t
    cases e <;> (try cases ‹Input›) <;> (try cases ‹Motion›) <;>
      exact ⟨⟨rfl, rfl⟩, ⟨rfl, rfl⟩, ⟨rfl, rfl⟩, ⟨rfl, rfl⟩, ⟨rfl, rfl⟩⟩
  · intro e U f g t
    obtain ⟨id, p⟩ := e
    refine ⟨?_, ?_, ?_, ?_, ?_⟩
    · rcases eq_or_ne id MOUSE_CURSOR with h | h
      · subst h
        cases p <;> exact ⟨rfl, rfl⟩
      · have h1 : MouseCursorEvent.mouse_cursor_args (⟨id, p⟩ : RawEvent) =
            MapResult.none := if_pos h
        have h2 : MouseCursorEvent.mouse_cursor (⟨id, p⟩ : RawEvent) f =
            MapResult.none := if_pos h
        rw [h1, h2]
        exact ⟨rfl, rfl⟩
    · rcases eq_or_ne id MOUSE_RELATIVE with h | h
      · subst h
        cases p <;> exact ⟨rfl, rfl⟩
      · have h1 :
            MouseRelativeEvent.mouse_relative_args (⟨id, p⟩ : RawEvent) =
            MapResult.none := if_pos h
        have h2 : MouseRelativeEvent.mouse_relative (⟨id, p⟩ : RawEvent) f =
            MapResult.none := if_pos h
        rw [h1, h2]
        exact ⟨rfl, rfl⟩
    · rcases eq_or_ne id MOUSE_SCROLL with h | h
      · subst h
        cases p <;> exact ⟨rfl, rfl⟩
      · have h1 : MouseScrollEvent.mouse_scroll_args (⟨id, p⟩ : RawEvent) =
            MapResult.none := if_pos h
        have h2 : MouseScrollEvent.mouse_scroll (⟨id, p⟩ : RawEvent) f =
            MapResult.none := if_pos h
        rw [h1, h2]
        exact ⟨rfl, rfl⟩
    · rcases eq_or_ne id RESIZE with h | h
      · subst h
        cases p <;> exact ⟨rfl, rfl⟩
      · have h1 : ResizeEvent.resize_args (⟨id, p⟩ : RawEvent) =
            MapResult.none := if_pos h
        have h2 : ResizeEvent.resize (⟨id, p⟩ : RawEvent) g =
            MapResult.none := if_pos h
        rw [h1, h2]
        exact ⟨rfl, rfl⟩
    · rcases eq_or_ne id TEXT with h | h
      · subst h
        cases p <;> exact ⟨rfl, rfl⟩
      · have h1 : TextEvent.text_args (⟨id, p⟩ : RawEvent) =
            MapResult.none := if_pos h
        have h2 : TextEvent.text (⟨id, p⟩ : RawEvent) t =
            MapResult.none := if_pos h
        rw [h1, h2]
        exact ⟨rfl, rfl⟩

/-- C6: for every event value (ranging over all tag/payload pairs a
`GenericEvent` implementation could expose) whose tag equals kind `K` but
whose erased payload does not downcast to `K`'s contracted payload type,
the typed mapping operation for `K` aborts with a descriptive panic
message, never returning `none` or a `some` value. -/
theorem mapping_fatal_on_payload_mismatch (id : EventId) (p : AnyVal) :
    (∀ (U : Type) (f : F64 → F64 → U), id = MOUSE_CURSOR →
      (∀ x y : F64, p ≠ AnyVal.pairF64 x y) →
      MouseCursorEvent.mouse_cursor (⟨id, p⟩ : RawEvent) f =
        MapResult.fatal "Expected (f64, f64)") ∧
    (∀ (U : Type) (f : F64 → F64 → U), id = MOUSE_RELATIVE →
      (∀ x y : F64, p ≠ AnyVal.pairF64 x y) →
      MouseRelativeEvent.mouse_relative (⟨id, p⟩ : RawEvent) f =
        MapResult.fatal "Expected (f64, f64)") ∧
    (∀ (U : Type) (f : F64 → F64 → U), id = MOUSE_SCROLL →
      (∀ x y : F64, p ≠ AnyVal.pairF64 x y) →
      MouseScrollEvent.mouse_scroll (⟨id, p⟩ : RawEvent) f =
        MapResult.fatal "Expected (f64, f64)") ∧
    (∀ (U : Type) (f : Nat → Nat → U), id = RESIZE →
      (∀ w h : Nat, p ≠ AnyVal.pairU32 w h) →
      ResizeEvent.resize (⟨id, p⟩ : RawEvent) f =
        MapResult.fatal "Expected (u32, u32)") ∧
    (∀ (U : Type) (f : String → U), id = TEXT →
      (∀ s : String, p ≠ AnyVal.str s) →
      TextEvent.text (⟨id, p⟩ : RawEvent) f =
        MapResult.fatal "Expected &str") := by
  refine ⟨?_, ?_, ?_, ?_, ?_⟩ <;>
    (intro U f hid hp
     subst hid
     cases p <;> first
       | rfl
       | exact absurd rfl (hp _ _)
       | exact absurd rfl (hp _))

/-- Witness for C6: a `RawEvent` tagged `MOUSE_CURSOR` carrying a string
payload makes the mouse-cursor mapping fatal with the exact source
message. -/
theorem mapping_fatal_on_payload_mismatch_witness :
    MouseCursorEvent.mouse_cursor
      (⟨MOUSE_CURSOR, AnyVal.str "bad"⟩ : RawEvent) (fun x y => (x, y)) =
      MapResult.fatal "Expected (f64, f64)" :=
  (mapping_fatal_on_payload_mismatch MOUSE_CURSOR (AnyVal.str "bad")).1
    (F64 × F64) (fun x y => (x, y)) rfl
    (fun _ _ h => AnyVal.noConfusion h)
